import Mathlib

/-!
Verification of the quickloop bulk-transfer subsystem.

The definitions below are shallow embeddings of the TypeScript source:

* the room media feed handlers (the INSERT and DELETE branches of the
  realtime callback in src/screens/ChatRoomScreen.tsx, and the optimistic
  removal in handleDeleteImage);
* the subscription status callback of setupRealtimeSubscription;
* the smoothed upload progress updates of uploadMultipleImages;
* the retry queue of uploadMultipleImages;
* downloadMultipleImages from src/lib/imageUtils.ts;
* getCachedImage from the storage module;
* deleteMultipleRoomImages (src/lib/supabase.ts) and
  deleteMultipleFromCloudinary (src/lib/cloudinary.ts).

JavaScript numbers are modelled as Nat / Int / Rat as appropriate, maps as
total functions, and external services as explicit oracle parameters.  Calls
to external services are recorded in explicit effect traces so that claims
of the form "performs no network transfer" can be stated.
-/

namespace QuickLoop

/-- One row of the room_images table, restricted to the fields the feed
handlers inspect (RoomImage in src/lib/supabase.ts). -/
structure RoomImage where
  id : String
  uploaded_by : String
  deriving DecidableEq, Repr

/-- The INSERT branch of the realtime callback in setupRealtimeSubscription
(ChatRoomScreen.tsx lines 227-239): the functional update passed to
setImages prepends the new image unless an image with the same id already
exists in the previous list. -/
def insertEventUpdate (prevImages : List RoomImage) (newImage : RoomImage) :
    List RoomImage :=
  if prevImages.any (fun img => img.id == newImage.id) then prevImages
  else newImage :: prevImages

/-- The optimistic removal performed by handleDeleteImage
(ChatRoomScreen.tsx lines 772-774): the image is filtered out of the
feed immediately, before the background delete call resolves.  No marker
of the pending removal is recorded anywhere in the component state. -/
def handleDeleteImageFilter (prevImages : List RoomImage) (imageId : String) :
    List RoomImage :=
  prevImages.filter (fun img => img.id != imageId)

/-- The component state touched by the DELETE branch of the realtime
callback: the feed list and the current image-selection set (selectedImages,
a Set of ids, modelled as a list). -/
structure ChatRoomState where
  images : List RoomImage
  selectedImages : List String
  deriving DecidableEq, Repr

/-- The DELETE branch of the realtime callback (ChatRoomScreen.tsx lines
241-268).  The guard selectedImages.has(deletedImageId) reads the
selectedImages value captured by the callback closure when the
subscription was established (the effect that installs the subscription
runs once per room id), while the conditional setSelectedImages uses a
functional update on the current selection.  The captured set is therefore
a separate parameter, subscriptionSelectedImages. -/
def deleteEventUpdate (subscriptionSelectedImages : List String)
    (st : ChatRoomState) (deletedImageId : String) : ChatRoomState :=
  { images := st.images.filter (fun img => img.id != deletedImageId),
    selectedImages :=
      if subscriptionSelectedImages.contains deletedImageId then
        st.selectedImages.filter (fun i => i != deletedImageId)
      else st.selectedImages }

/-- Subscription status values delivered to the subscribe callback in
setupRealtimeSubscription (ChatRoomScreen.tsx lines 271-296). -/
inductive SubscriptionStatus where
  | subscribed
  | channelError
  | timedOut
  deriving DecidableEq, Repr

/-- An action scheduled by the subscribe status callback. -/
inductive SubscriptionAction where
  | scheduleReconnect (delayMs : Nat)
  deriving DecidableEq, Repr

/-- The subscribe status callback of setupRealtimeSubscription
(ChatRoomScreen.tsx lines 271-296).  On CHANNEL_ERROR the source declares
let retryCount = 0 and const maxRetries = 3 locally inside the callback
body, tests retryCount < maxRetries, computes the delay as
Math.pow(2, retryCount) * 2000, increments the (local) retryCount and
schedules one setTimeout re-running setupRealtimeSubscription.  Because the
counter is re-declared on every invocation, the increment is dead.  On
TIMED_OUT and on SUBSCRIBED nothing is scheduled. -/
def subscribeStatusCallback : SubscriptionStatus → List SubscriptionAction
  | .subscribed => []
  | .channelError =>
      let retryCount := 0
      let maxRetries := 3
      if retryCount < maxRetries then
        [.scheduleReconnect (2 ^ retryCount * 2000)]
      else []
  | .timedOut => []

/-- Total number of reconnect attempts scheduled over a sequence of status
events delivered to the callback. -/
def reconnectsScheduled (events : List SubscriptionStatus) : Nat :=
  (events.map (fun e => (subscribeStatusCallback e).length)).sum

/-- Concrete image used in counterexamples and witnesses. -/
def xImg : RoomImage := { id := "X", uploaded_by := "alice" }

/-- C1 counterexample: an optimistic local delete of id X followed by a
remote INSERT event carrying id X reintroduces X into the feed.  The claim
that X remains absent is false: the INSERT handler only checks id presence
in the current list, and the source keeps no optimistic-removal marker. -/
theorem insert_after_optimistic_delete_reintroduces :
    (insertEventUpdate (handleDeleteImageFilter [xImg] "X") xImg).any
      (fun img => img.id == "X") = true := by
  decide

/-- C1 (amended): after the optimistic removal of an id, a remote INSERT
event carrying that id always reinserts the image at the front of the feed,
because the only guard in the INSERT handler is presence of the id in the
current list and the optimistic removal left no image with that id. -/
theorem insertEventUpdate_after_handleDeleteImageFilter
    (images : List RoomImage) (img : RoomImage) :
    insertEventUpdate (handleDeleteImageFilter images img.id) img =
      img :: handleDeleteImageFilter images img.id := by
  unfold insertEventUpdate
  rw [if_neg]
  simp only [handleDeleteImageFilter, List.any_eq_true, List.mem_filter]
  rintro ⟨i, ⟨_, hne⟩, heq⟩
  simp only [bne_iff_ne, ne_eq] at hne
  simp only [beq_iff_eq] at heq
  exact hne heq

/-- C7: the INSERT handler never introduces a duplicate id.  If the feed
already contains the id, the event leaves the feed unchanged, and applying
the same INSERT event twice equals applying it once. -/
theorem insertEventUpdate_idempotent :
    (∀ (images : List RoomImage) (newImage : RoomImage),
      images.any (fun img => img.id == newImage.id) = true →
      insertEventUpdate images newImage = images) ∧
    (∀ (images : List RoomImage) (newImage : RoomImage),
      insertEventUpdate (insertEventUpdate images newImage) newImage =
        insertEventUpdate images newImage) := by
  constructor
  · intro images newImage h
    unfold insertEventUpdate
    rw [if_pos h]
  · intro images newImage
    unfold insertEventUpdate
    by_cases h : images.any (fun img => img.id == newImage.id) = true
    · simp only [if_pos h]
    · rw [if_neg h]
      have hhead : (newImage :: images).any (fun img => img.id == newImage.id)
          = true := by
        simp [List.any_cons]
      rw [if_pos hhead]

/-- C7 witness: the first conjunct applied to the one-element feed already
containing the image. -/
theorem insertEventUpdate_idempotent_witness :
    ([xImg].any (fun img => img.id == xImg.id) = true) ∧
      insertEventUpdate [xImg] xImg = [xImg] :=
  ⟨by decide, insertEventUpdate_idempotent.1 [xImg] xImg (by decide)⟩

/-- C9 counterexample: the selection set captured by the subscription
closure is the value from the render in which the subscription effect ran
(the initial, empty selection), so a remote DELETE for an id selected later
leaves that id in the current selection. -/
theorem deleteEventUpdate_keeps_stale_selection :
    (deleteEventUpdate [] { images := [xImg], selectedImages := ["X"] }
        "X").selectedImages = ["X"] := by
  decide

/-- C9 (amended): a remote DELETE event removes the deleted id from the
current selection only when the id is contained in the selection set
captured at subscription setup; in that case the id is absent from the
resulting selection. -/
theorem deleteEventUpdate_clears_captured_selection
    (captured : List String) (st : ChatRoomState) (deletedImageId : String)
    (h : captured.contains deletedImageId = true) :
    (deleteEventUpdate captured st deletedImageId).selectedImages.contains
      deletedImageId = false := by
  unfold deleteEventUpdate
  simp only [h, if_true]
  rw [Bool.eq_false_iff]
  intro hc
  rw [List.elem_iff] at hc
  simp at hc

/-- C9 witness: the amended statement at a concrete state whose captured
selection contains the deleted id. -/
theorem deleteEventUpdate_clears_captured_selection_witness :
    (["X"].contains "X" = true) ∧
      (deleteEventUpdate ["X"]
          { images := [xImg], selectedImages := ["X"] }
          "X").selectedImages.contains "X" = false :=
  ⟨by decide,
    deleteEventUpdate_clears_captured_selection ["X"]
      { images := [xImg], selectedImages := ["X"] } "X" (by decide)⟩

/-- C3: evaluation of the status callback at the failing input.  Four
consecutive CHANNEL_ERROR events schedule four reconnect attempts, each
with the constant delay 2000 ms: the retry cap declared inside the callback
never binds and the delay never doubles, contradicting the bounded
exponential-backoff policy (at most 3 attempts) stated by the spec and by
the comments in the source itself. -/
theorem channelError_always_schedules_reconnect :
    reconnectsScheduled (List.replicate 4 .channelError) = 4 ∧
      subscribeStatusCallback .channelError = [.scheduleReconnect 2000] := by
  exact ⟨rfl, rfl⟩

/-! Smoothed upload progress (uploadMultipleImages, ChatRoomScreen.tsx
lines 408-417 and 434-472).  JavaScript floating-point arithmetic is
modelled with rationals. -/

/-- One tick of the 150 ms progress timer: the functional update passed to
setUploadProgress advances prev by (0.95 - prev) * 0.15 while prev is below
0.95 and leaves it unchanged otherwise. -/
def uploadProgressTick (prev : ℚ) : ℚ :=
  if prev < 95 / 100 then prev + (95 / 100 - prev) * (15 / 100) else prev

/-- The events that update uploadProgress during a batch upload: a timer
tick, the direct update setUploadProgress((completedUploads +
failedUploads) / totalUploads) issued when an item resolves, and the final
snap setUploadProgress(1) when the queue drains. -/
inductive ProgressEvent where
  | tick
  | itemResolved (completedUploads failedUploads totalUploads : ℕ)
  | complete
  deriving DecidableEq, Repr

/-- Effect of one progress event on the current uploadProgress value. -/
def applyProgressEvent (prev : ℚ) : ProgressEvent → ℚ
  | .tick => uploadProgressTick prev
  | .itemResolved c f t => ((c : ℚ) + (f : ℚ)) / (t : ℚ)
  | .complete => 1

/-- C4 counterexample: reported progress is not monotonically
non-decreasing before completion.  Starting from the initial value 0, one
timer tick raises progress to 57/400 = 0.1425; the direct update issued
when the first of ten items resolves then lowers it to 1/10. -/
theorem uploadProgress_not_monotone :
    applyProgressEvent (applyProgressEvent 0 .tick) (.itemResolved 1 0 10) <
      applyProgressEvent 0 .tick := by
  norm_num [applyProgressEvent, uploadProgressTick]

/-- C4 (amended): the timer-driven smoothing updates never decrease the
progress value, and batch completion snaps progress to exactly 1; but the
direct per-item fraction updates are outside this guarantee. -/
theorem uploadProgressTick_monotone_and_snap :
    (∀ p : ℚ, p ≤ uploadProgressTick p) ∧
      (∀ p : ℚ, applyProgressEvent p .complete = 1) := by
  constructor
  · intro p
    unfold uploadProgressTick
    by_cases h : p < 95 / 100
    · rw [if_pos h]
      nlinarith
    · rw [if_neg h]
  · intro p
    rfl

/-! Bulk download to the device media library (downloadMultipleImages,
src/lib/imageUtils.ts lines 318-381).  The platform collaborators are
modelled by a permission outcome and one behavior record per item; the
calls issued to them are recorded in an effect trace. -/

/-- Outcome of MediaLibrary.requestPermissionsAsync at the start of the
batch: granted, a non-granted status, or a thrown exception (which lands in
the wholesale catch block). -/
inductive PermissionResult where
  | granted
  | denied
  | requestThrew
  deriving DecidableEq, Repr

/-- Behavior of the collaborators for one item: whether getCachedImageUri
resolves to a valid cached file, whether FileSystem.downloadAsync returns
status 200, and whether the MediaLibrary save (createAssetAsync plus the
album bookkeeping) completes without throwing. -/
structure ItemBehavior where
  cached : Bool
  downloadOk : Bool
  saveOk : Bool
  deriving DecidableEq, Repr

/-- Externally visible calls performed while processing the batch. -/
inductive DownloadEffect where
  | cacheLookup
  | networkDownload
  | librarySave
  deriving DecidableEq, Repr

/-- Result record of downloadMultipleImages.  The source omits the
permissionDenied field except in the denial branch; the omitted (falsy)
field is modelled as false. -/
structure DownloadResult where
  success : Bool
  count : Nat
  permissionDenied : Bool
  deriving DecidableEq, Repr

/-- The per-item loop body of downloadMultipleImages: look up the cache;
if no valid cached file, download (and on a non-200 status continue to the
next item); then attempt the media-library save, whose exception is caught
by the per-item catch.  Returns whether successCount was incremented,
together with the calls made. -/
def processDownloadItem (b : ItemBehavior) : Bool × List DownloadEffect :=
  if b.cached then
    (b.saveOk, [.cacheLookup, .librarySave])
  else if b.downloadOk then
    (b.saveOk, [.cacheLookup, .networkDownload, .librarySave])
  else
    (false, [.cacheLookup, .networkDownload])

/-- Accumulation of successCount and of the effect trace over the items. -/
def downloadStep (acc : Nat × List DownloadEffect) (b : ItemBehavior) :
    Nat × List DownloadEffect :=
  let r := processDownloadItem b
  (acc.1 + (if r.1 then 1 else 0), acc.2 ++ r.2)

/-- Whether the item ends up saved (successCount incremented). -/
def itemSaved (b : ItemBehavior) : Bool :=
  (b.cached || b.downloadOk) && b.saveOk

/-- Shallow embedding of downloadMultipleImages (imageUtils.ts lines
318-381): request permission once; on denial return immediately with
success false, count 0, permissionDenied true and no further calls; on a
thrown permission request the wholesale catch returns success false,
count 0; otherwise process every item, counting successful saves, and
return success = (successCount > 0). -/
def downloadMultipleImages (perm : PermissionResult)
    (items : List ItemBehavior) : DownloadResult × List DownloadEffect :=
  match perm with
  | .denied => ({ success := false, count := 0, permissionDenied := true }, [])
  | .requestThrew =>
      ({ success := false, count := 0, permissionDenied := false }, [])
  | .granted =>
      let res := items.foldl downloadStep (0, [])
      ({ success := decide (0 < res.1), count := res.1,
         permissionDenied := false }, res.2)

/-- C5: when the device-library permission is denied, downloadMultipleImages
returns success false, count 0, permissionDenied true and performs no cache
lookup, no network download and no media-library save for any item. -/
theorem downloadMultipleImages_denied (items : List ItemBehavior) :
    downloadMultipleImages .denied items =
      ({ success := false, count := 0, permissionDenied := true }, []) := rfl

/-- The increment recorded by processDownloadItem is exactly itemSaved. -/
theorem processDownloadItem_fst (b : ItemBehavior) :
    (processDownloadItem b).1 = itemSaved b := by
  rcases b with ⟨c, d, s⟩
  cases c <;> cases d <;> cases s <;> rfl

/-- Every branch of processDownloadItem performs exactly one cache
lookup. -/
theorem processDownloadItem_cacheLookup (b : ItemBehavior) :
    (processDownloadItem b).2.count .cacheLookup = 1 := by
  rcases b with ⟨c, d, s⟩
  cases c <;> cases d <;> cases s <;> rfl

/-- Unfolding lemma for the fold that drives the granted branch. -/
theorem downloadFold_spec (items : List ItemBehavior)
    (acc : Nat × List DownloadEffect) :
    (items.foldl downloadStep acc).1 = acc.1 + items.countP itemSaved ∧
      (items.foldl downloadStep acc).2.count .cacheLookup =
        acc.2.count .cacheLookup + items.length := by
  induction items generalizing acc with
  | nil => simp
  | cons b t ih =>
      rcases ih (downloadStep acc b) with ⟨h1, h2⟩
      constructor
      · rw [List.foldl_cons, h1]
        simp only [downloadStep, processDownloadItem_fst]
        rw [List.countP_cons]
        cases hb : itemSaved b
        · simp [hb]
        · simp [hb]
          omega
      · rw [List.foldl_cons, h2]
        simp only [downloadStep]
        rw [List.count_append, processDownloadItem_cacheLookup,
          List.length_cons]
        ring

/-- C6: with permission granted, no individual failure aborts the batch:
every item still incurs its cache lookup, the returned count equals the
number of items successfully saved, and success holds exactly when count is
positive; a wholesale exception from the permission request is converted to
success false, count 0. -/
theorem downloadMultipleImages_granted_spec (items : List ItemBehavior) :
    (downloadMultipleImages .granted items).1.count =
        items.countP itemSaved ∧
      (downloadMultipleImages .granted items).1.success =
        decide (0 < (downloadMultipleImages .granted items).1.count) ∧
      (downloadMultipleImages .granted items).2.count .cacheLookup =
        items.length ∧
      downloadMultipleImages .requestThrew items =
        ({ success := false, count := 0, permissionDenied := false }, []) := by
  rcases downloadFold_spec items (0, []) with ⟨h1, h2⟩
  refine ⟨?_, rfl, ?_, rfl⟩
  · simpa [downloadMultipleImages] using h1
  · simpa [downloadMultipleImages] using h2

/-! Local image cache metadata (getCachedImage in the storage module).
The AsyncStorage-backed cache is modelled as a total function from URL to
an optional entry, and Date.now() as an explicit integer parameter.  The
function consults no file-system information at all. -/

/-- A persisted cache entry (interface CachedImage in the storage
module). -/
structure CachedImage where
  url : String
  cachedPath : Option String
  timestamp : Int
  deriving DecidableEq, Repr

/-- Cache expiration in milliseconds: 7 days. -/
def CACHE_EXPIRATION : Int := 7 * 24 * 60 * 60 * 1000

/-- Shallow embedding of getCachedImage: return the stored entry when one
exists and Date.now() - timestamp < CACHE_EXPIRATION, else null. -/
def getCachedImage (cacheData : String → Option CachedImage) (now : Int)
    (url : String) : Option CachedImage :=
  match cacheData url with
  | some cachedImage =>
      if now - cachedImage.timestamp < CACHE_EXPIRATION then some cachedImage
      else none
  | none => none

/-- C8: an entry whose age now - timestamp has reached the 7-day TTL is
reported as a miss (null), whatever the stored entry contains; file
existence cannot influence the outcome since getCachedImage consults no
file-system state. -/
theorem getCachedImage_expired_is_miss
    (cacheData : String → Option CachedImage) (now : Int) (url : String)
    (ci : CachedImage) (hlook : cacheData url = some ci)
    (hexp : CACHE_EXPIRATION ≤ now - ci.timestamp) :
    getCachedImage cacheData now url = none := by
  unfold getCachedImage
  rw [hlook]
  simp only [if_neg (not_lt.mpr hexp)]

/-- C8 witness: a concrete expired entry whose referenced local path is
present, looked up exactly at the TTL boundary. -/
theorem getCachedImage_expired_is_miss_witness :
    ((fun _ : String => some
        ({ url := "u", cachedPath := some "p", timestamp := 0 } :
          CachedImage)) "u" =
      some { url := "u", cachedPath := some "p", timestamp := 0 }) ∧
      CACHE_EXPIRATION ≤ (604800000 : Int) - (0 : Int) ∧
      getCachedImage
        (fun _ : String => some
          { url := "u", cachedPath := some "p", timestamp := 0 })
        604800000 "u" = none :=
  ⟨rfl, by decide,
    getCachedImage_expired_is_miss
      (fun _ : String => some
        { url := "u", cachedPath := some "p", timestamp := 0 })
      604800000 "u" { url := "u", cachedPath := some "p", timestamp := 0 }
      rfl (by decide)⟩

/-! Bulk deletion (deleteMultipleRoomImages in src/lib/supabase.ts and
deleteMultipleFromCloudinary in src/lib/cloudinary.ts).  The remote
services are modelled by environment records and the calls issued to them
by an explicit trace. -/

/-- Calls made by the bulk delete path to remote services and to the local
cache. -/
inductive RemoteCall where
  | edgeFunctionPost
  | fetchImageRows
  | removeCachedImageCall
  | dbDeleteRows
  deriving DecidableEq, Repr

/-- Outcome of the POST to the delete-cloudinary-resources edge function:
the fetch (or reading the response body) threw, the body was not valid
JSON, or a parsed response with its ok flag, success flag and the number of
keys of result.deleted. -/
inductive EdgeFunctionOutcome where
  | threw
  | invalidJson
  | parsed (ok : Bool) (success : Bool) (deletedKeys : Nat)
  deriving DecidableEq, Repr

/-- Environment of deleteMultipleFromCloudinary: the public-id extraction
(getCloudinaryPublicId) and the edge-function outcome. -/
structure CloudinaryEnv where
  extractPublicId : String → Option String
  outcome : EdgeFunctionOutcome

/-- Result record of deleteMultipleFromCloudinary. -/
structure CloudinaryDeleteResult where
  success : Bool
  deletedCount : Nat
  deriving DecidableEq, Repr

/-- Shallow embedding of deleteMultipleFromCloudinary (cloudinary.ts lines
262-341): an empty URL list returns success true, deletedCount 0 before any
network call; otherwise public ids are extracted, an empty id list returns
success false, deletedCount 0 without a network call, and otherwise one
POST is made whose outcome determines the result. -/
def deleteMultipleFromCloudinary (env : CloudinaryEnv)
    (imageUrls : List String) : CloudinaryDeleteResult × List RemoteCall :=
  if imageUrls.isEmpty then
    ({ success := true, deletedCount := 0 }, [])
  else
    let publicIds := imageUrls.filterMap env.extractPublicId
    if publicIds.isEmpty then
      ({ success := false, deletedCount := 0 }, [])
    else
      match env.outcome with
      | .threw => ({ success := false, deletedCount := 0 }, [.edgeFunctionPost])
      | .invalidJson =>
          ({ success := false, deletedCount := 0 }, [.edgeFunctionPost])
      | .parsed ok success deletedKeys =>
          if ok && success then
            ({ success := true, deletedCount := deletedKeys },
              [.edgeFunctionPost])
          else ({ success := false, deletedCount := 0 }, [.edgeFunctionPost])

/-- Environment of deleteMultipleRoomImages: the image_url column of the
rows fetched for the given ids (or a fetch error), the Cloudinary
environment used for the bulk blob delete, and whether the final database
delete reports an error. -/
structure SupabaseDeleteEnv where
  fetchedRows : Except Unit (List String)
  cloudinary : CloudinaryEnv
  dbDeleteError : Bool

/-- Shallow embedding of deleteMultipleRoomImages (supabase.ts lines
443-490): an empty id list returns true before any remote call; otherwise
the image rows are fetched, on data the non-empty URLs are deleted from
Cloudinary in bulk and removed from the local cache one by one, and finally
the rows are deleted from the database, whose error determines the
result. -/
def deleteMultipleRoomImages (env : SupabaseDeleteEnv)
    (imageIds : List String) : Bool × List RemoteCall :=
  if imageIds.isEmpty then (true, [])
  else
    let cloudCalls : List RemoteCall :=
      match env.fetchedRows with
      | .error _ => []
      | .ok rows =>
          if rows.length > 0 then
            let imageUrls := rows.filter (fun url => url ≠ "")
            if imageUrls.length > 0 then
              (deleteMultipleFromCloudinary env.cloudinary imageUrls).2 ++
                imageUrls.map (fun _ => RemoteCall.removeCachedImageCall)
            else []
          else []
    (!env.dbDeleteError, [RemoteCall.fetchImageRows] ++ cloudCalls ++
      [RemoteCall.dbDeleteRows])

/-- C10: on the empty input list both bulk delete operations succeed
trivially and make no remote call: deleteMultipleRoomImages returns true
and deleteMultipleFromCloudinary returns success true, deletedCount 0. -/
theorem bulk_delete_empty_input (env : SupabaseDeleteEnv)
    (cenv : CloudinaryEnv) :
    deleteMultipleRoomImages env [] = (true, []) ∧
      deleteMultipleFromCloudinary cenv [] =
        ({ success := true, deletedCount := 0 }, []) :=
  ⟨rfl, rfl⟩

/-! Retrying upload queue (uploadMultipleImages, ChatRoomScreen.tsx lines
394-493).  The loop keeps a queue of URIs, takes batches of two, uploads
each item of the batch, re-enqueues failed items at the back of the queue
with an incremented per-URI retry count while that count is below
maxRetries, and otherwise counts the item as failed.  Whether a given
upload attempt succeeds is an oracle parameter. -/

/-- Maximum number of retries per image URI (const maxRetries = 3). -/
def maxRetries : Nat := 3

/-- Number of images processed per batch (const batchSize = 2). -/
def batchSize : Nat := 2

/-- State of the upload loop: the queue of URIs still to process, the
retries map (a Map from URI to number, modelled as a total function
defaulting to 0), and the completedUploads and failedUploads counters. -/
structure UploadState where
  queue : List String
  retries : String → Nat
  completedUploads : Nat
  failedUploads : Nat

/-- The body mapped over one batch inside Promise.allSettled: attempt the
upload (the oracle decides success from the URI and its current retries
value); on success increment completedUploads; on failure re-enqueue the
URI at the back of the queue with retries + 1 when the current retry count
is below maxRetries, else increment failedUploads.  The settled promises
are sequentialized left to right; this fixes only the interleaving of the
counter updates, not their final values. -/
def processUploadItem (oracle : String → Nat → Bool) (st : UploadState)
    (uri : String) : UploadState :=
  if oracle uri (st.retries uri) then
    { st with completedUploads := st.completedUploads + 1 }
  else if st.retries uri < maxRetries then
    { st with
        retries := fun v => if v = uri then st.retries uri + 1 else st.retries v,
        queue := st.queue ++ [uri] }
  else
    { st with failedUploads := st.failedUploads + 1 }

/-- Termination potential of one queued occurrence of a URI: positive, and
strictly decreasing when the occurrence is re-enqueued. -/
def uriPotential (retries : String → Nat) (uri : String) : Nat :=
  1 + (maxRetries + 1 - retries uri)

/-- Termination measure of an upload state: total potential of the
queue. -/
def uploadMeasure (st : UploadState) : Nat :=
  (st.queue.map (uriPotential st.retries)).sum

theorem processUploadItem_retries_mono (oracle : String → Nat → Bool)
    (st : UploadState) (uri v : String) :
    st.retries v ≤ (processUploadItem oracle st uri).retries v := by
  unfold processUploadItem
  by_cases h1 : oracle uri (st.retries uri)
  · rw [if_pos h1]
  · rw [if_neg h1]
    by_cases h2 : st.retries uri < maxRetries
    · rw [if_pos h2]
      by_cases hv : v = uri
      · subst hv
        simp
      · simp [hv]
    · rw [if_neg h2]

theorem uriPotential_antitone (r R : String → Nat) (uri : String)
    (h : r uri ≤ R uri) : uriPotential R uri ≤ uriPotential r uri := by
  unfold uriPotential
  omega

theorem processUploadItem_measure (oracle : String → Nat → Bool)
    (st : UploadState) (uri : String) :
    uploadMeasure (processUploadItem oracle st uri) + 1 ≤
      uploadMeasure st + uriPotential st.retries uri := by
  unfold processUploadItem
  by_cases h1 : oracle uri (st.retries uri)
  · rw [if_pos h1]
    have : uploadMeasure { st with completedUploads := st.completedUploads + 1 }
        = uploadMeasure st := rfl
    rw [this]
    have hp : 1 ≤ uriPotential st.retries uri := by
      unfold uriPotential
      omega
    omega
  · rw [if_neg h1]
    by_cases h2 : st.retries uri < maxRetries
    · rw [if_pos h2]
      set R : String → Nat :=
        fun v => if v = uri then st.retries uri + 1 else st.retries v with hR
      have hsum :
          (st.queue.map (uriPotential R)).sum ≤
            (st.queue.map (uriPotential st.retries)).sum := by
        apply List.sum_le_sum
        intro v _
        apply uriPotential_antitone
        rw [hR]
        by_cases hv : v = uri
        · subst hv
          simp
        · simp [hv]
      have hRu : R uri = st.retries uri + 1 := by
        rw [hR]
        simp
      have h2n : st.retries uri < 3 := h2
      have hnew : uriPotential R uri + 1 = uriPotential st.retries uri := by
        unfold uriPotential maxRetries
        rw [hRu]
        omega
      have hms :
          uploadMeasure
              { st with retries := R, queue := st.queue ++ [uri] } =
            (st.queue.map (uriPotential R)).sum + uriPotential R uri := by
        unfold uploadMeasure
        dsimp only
        rw [List.map_append, List.sum_append]
        simp
      have hmst : uploadMeasure st =
          (st.queue.map (uriPotential st.retries)).sum := rfl
      rw [hms, hmst]
      omega
    · rw [if_neg h2]
      have : uploadMeasure { st with failedUploads := st.failedUploads + 1 }
          = uploadMeasure st := rfl
      rw [this]
      have hp : 1 ≤ uriPotential st.retries uri := by
        unfold uriPotential
        omega
      omega

theorem foldl_processUploadItem_measure (oracle : String → Nat → Bool)
    (batch : List String) (st : UploadState) :
    uploadMeasure (batch.foldl (processUploadItem oracle) st) + batch.length ≤
      uploadMeasure st + (batch.map (uriPotential st.retries)).sum := by
  induction batch generalizing st with
  | nil => simp
  | cons u t ih =>
      have h1 := processUploadItem_measure oracle st u
      have h2 := ih (processUploadItem oracle st u)
      have h3 :
          (t.map (uriPotential (processUploadItem oracle st u).retries)).sum ≤
            (t.map (uriPotential st.retries)).sum := by
        apply List.sum_le_sum
        intro v _
        exact uriPotential_antitone st.retries _ v
          (processUploadItem_retries_mono oracle st u v)
      simp only [List.foldl_cons, List.map_cons, List.sum_cons,
        List.length_cons]
      omega

/-- The while loop of uploadMultipleImages: while the queue is non-empty,
splice off a batch of batchSize URIs and process it.  (The 500 ms pause
between batches has no effect on the state.) -/
def runUploadQueue (oracle : String → Nat → Bool) (st : UploadState) :
    UploadState :=
  match h : st.queue with
  | [] => st
  | _ :: _ =>
      runUploadQueue oracle
        ((st.queue.take batchSize).foldl (processUploadItem oracle)
          { st with queue := st.queue.drop batchSize })
  termination_by uploadMeasure st
  decreasing_by
    have hfold := foldl_processUploadItem_measure oracle
      (st.queue.take batchSize) { st with queue := st.queue.drop batchSize }
    dsimp only at hfold
    have hsplit : uploadMeasure st =
        ((st.queue.take batchSize).map (uriPotential st.retries)).sum +
          ((st.queue.drop batchSize).map (uriPotential st.retries)).sum := by
      unfold uploadMeasure
      rw [← List.sum_append, ← List.map_append, List.take_append_drop]
    have hlen : 1 ≤ (st.queue.take batchSize).length := by
      rw [h]
      rw [List.length_take, List.length_cons]
      unfold batchSize
      omega
    have hrest : uploadMeasure { st with queue := st.queue.drop batchSize } =
        ((st.queue.drop batchSize).map (uriPotential st.retries)).sum := rfl
    rw [hrest] at hfold
    rw [hsplit]
    have h1 := Nat.lt_add_of_pos_right (n := uploadMeasure
      ((st.queue.take batchSize).foldl (processUploadItem oracle)
        { st with queue := st.queue.drop batchSize })) hlen
    exact lt_of_lt_of_le h1 (hfold.trans (Nat.le_of_eq (Nat.add_comm _ _)))

theorem processUploadItem_conserved (oracle : String → Nat → Bool)
    (st : UploadState) (uri : String) :
    (processUploadItem oracle st uri).completedUploads +
        (processUploadItem oracle st uri).failedUploads +
        (processUploadItem oracle st uri).queue.length =
      st.completedUploads + st.failedUploads + st.queue.length + 1 := by
  unfold processUploadItem
  by_cases h1 : oracle uri (st.retries uri)
  · rw [if_pos h1]
    dsimp only
    omega
  · rw [if_neg h1]
    by_cases h2 : st.retries uri < maxRetries
    · rw [if_pos h2]
      dsimp only
      rw [List.length_append, List.length_cons, List.length_nil]
      omega
    · rw [if_neg h2]
      dsimp only
      omega

theorem foldl_processUploadItem_conserved (oracle : String → Nat → Bool)
    (batch : List String) (st : UploadState) :
    (batch.foldl (processUploadItem oracle) st).completedUploads +
        (batch.foldl (processUploadItem oracle) st).failedUploads +
        (batch.foldl (processUploadItem oracle) st).queue.length =
      st.completedUploads + st.failedUploads + st.queue.length +
        batch.length := by
  induction batch generalizing st with
  | nil => simp
  | cons u t ih =>
      have h1 := processUploadItem_conserved oracle st u
      have h2 := ih (processUploadItem oracle st u)
      simp only [List.foldl_cons, List.length_cons]
      omega

theorem runUploadQueue_spec (oracle : String → Nat → Bool)
    (st : UploadState) :
    (runUploadQueue oracle st).completedUploads +
        (runUploadQueue oracle st).failedUploads =
      st.completedUploads + st.failedUploads + st.queue.length ∧
      (runUploadQueue oracle st).queue = [] := by
  induction st using runUploadQueue.induct oracle with
  | case1 st h =>
      rw [runUploadQueue, h]
      simp [h]
  | case2 st a l h ih =>
      rw [runUploadQueue, h]
      simp only [← h]
      rcases ih with ⟨ih1, ih2⟩
      refine ⟨?_, ih2⟩
      rw [ih1]
      have hc := foldl_processUploadItem_conserved oracle
        (st.queue.take batchSize) { st with queue := st.queue.drop batchSize }
      have hlen : (st.queue.take batchSize).length +
          (st.queue.drop batchSize).length = st.queue.length := by
        rw [← List.length_append, List.take_append_drop]
      simp only at hc
      omega

/-- C2: counting and retry discipline of the batch upload loop.  First
conjunct: when the queue drains, completedUploads + failedUploads equals
the number of submitted URIs.  Second conjunct: a failing item whose retry
count is below maxRetries is re-enqueued at the back of the queue with its
retry count incremented and does not count as failed.  Third conjunct: a
failing item whose retry count has reached maxRetries is counted as failed
exactly once and is not re-enqueued (so it is never retried again within
the batch). -/
theorem uploadMultipleImages_counts :
    (∀ (oracle : String → Nat → Bool) (uris : List String),
      (runUploadQueue oracle
          { queue := uris, retries := fun _ => 0, completedUploads := 0,
            failedUploads := 0 }).completedUploads +
        (runUploadQueue oracle
          { queue := uris, retries := fun _ => 0, completedUploads := 0,
            failedUploads := 0 }).failedUploads = uris.length) ∧
    (∀ (oracle : String → Nat → Bool) (st : UploadState) (uri : String),
      oracle uri (st.retries uri) = false → st.retries uri < maxRetries →
      (processUploadItem oracle st uri).queue = st.queue ++ [uri] ∧
        (processUploadItem oracle st uri).failedUploads = st.failedUploads ∧
        (processUploadItem oracle st uri).retries uri = st.retries uri + 1) ∧
    (∀ (oracle : String → Nat → Bool) (st : UploadState) (uri : String),
      oracle uri (st.retries uri) = false → maxRetries ≤ st.retries uri →
      (processUploadItem oracle st uri).failedUploads = st.failedUploads + 1 ∧
        (processUploadItem oracle st uri).queue = st.queue ∧
        (processUploadItem oracle st uri).retries = st.retries) := by
  refine ⟨?_, ?_, ?_⟩
  · intro oracle uris
    have h := (runUploadQueue_spec oracle
      { queue := uris, retries := fun _ => 0, completedUploads := 0,
        failedUploads := 0 }).1
    simpa using h
  · intro oracle st uri h1 h2
    unfold processUploadItem
    rw [if_neg (by simp [h1]), if_pos h2]
    refine ⟨rfl, rfl, ?_⟩
    simp
  · intro oracle st uri h1 h2
    unfold processUploadItem
    rw [if_neg (by simp [h1]), if_neg (not_lt.mpr h2)]
    exact ⟨rfl, rfl, rfl⟩

/-- C2 witness: the re-enqueue conjunct applied to a concrete state with an
always-failing oracle and retry count 0. -/
theorem uploadMultipleImages_counts_witness :
    ((fun (_ : String) (_ : Nat) => false) "a"
        (({ queue := [], retries := fun _ => 0, completedUploads := 0,
            failedUploads := 0 } : UploadState).retries "a") = false) ∧
      (({ queue := [], retries := fun _ => 0, completedUploads := 0,
          failedUploads := 0 } : UploadState).retries "a" < maxRetries) ∧
      ((processUploadItem (fun _ _ => false)
          { queue := [], retries := fun _ => 0, completedUploads := 0,
            failedUploads := 0 } "a").queue = [] ++ ["a"] ∧
        (processUploadItem (fun _ _ => false)
          { queue := [], retries := fun _ => 0, completedUploads := 0,
            failedUploads := 0 } "a").failedUploads = 0 ∧
        (processUploadItem (fun _ _ => false)
          { queue := [], retries := fun _ => 0, completedUploads := 0,
            failedUploads := 0 } "a").retries "a" = 0 + 1) :=
  ⟨rfl, by decide,
    uploadMultipleImages_counts.2.1 (fun _ _ => false)
      { queue := [], retries := fun _ => 0, completedUploads := 0,
        failedUploads := 0 } "a" rfl (by decide)⟩

end QuickLoop
